import Mathlib

/-!
Verification of the call_ai voice-call client against its natural-language
specification.  The definitions below are a shallow embedding of the
TypeScript source: `SlideToCall` (gesture trigger), `MessageInput`,
`CallInterface` (session state machine, transport handlers, capture encoder
and playback queue).  Mutable React refs become fields of explicit state
records; each event handler becomes a function from state to state (plus an
`Effects` record collecting the toasts shown and the envelopes sent over the
WebSocket).  Machine-level numeric conversions (JavaScript `ToInt16` on
`Int16Array` stores) are made explicit over `ℤ`/`ℚ`.
-/

namespace CallAi

/-- Call lifecycle states, from `type CallState = 'idle' | 'connecting' | 'active'`. -/
inductive CallState where
  | idle
  | connecting
  | active
deriving DecidableEq

/-- WebSocket readyState abstraction for the single socket tracked by the model. -/
inductive WsReady where
  | connecting
  | open
  | closed
deriving DecidableEq

/-- A toast notification, `toast({ title, description })` in the source. -/
structure Toast where
  title : String
  description : String
deriving DecidableEq

/-- Outbound envelopes sent over the WebSocket (`ws.send(JSON.stringify(...))`). -/
inductive Envelope where
  | config (sampleRate : Nat) (inputMode : String)
  | audio (payload : String)
  | text (content : String)
deriving DecidableEq

/-- Parsed inbound envelopes dispatched by `handleWebSocketMessage`.  `other`
covers any well-formed envelope whose `type` is none of the four handled
cases (the `switch` falls through); `malformed` covers a `JSON.parse`
failure (caught and logged). -/
inductive InMsg where
  | audio (payload : String)
  | transcript
  | clearAudio
  | errorMsg (message : String)
  | other (ty : String)
  | malformed
deriving DecidableEq

/-!
## Playback queue (Decode/Playback Pipeline)

State of the refs touched by `queueAudio` / `clearAudioQueue` /
`playNextAudio` / the `onended` callback: `audioQueueRef`, `isPlayingRef`,
`currentSourceRef`, `outputAudioContextRef`.  Each started
`AudioBufferSourceNode` is given a fresh numeric id; `started` is the ghost
log of renders started (id, payload), `stopped` the ghost log of sources
stopped early by `clearAudioQueue`, and `endedFired` records which
completion callbacks have already been delivered (each fires at most once,
at some environment-chosen later time — including after `stop()`).
-/

structure PlaybackState where
  audioQueue : List String
  isPlaying : Bool
  currentSource : Option Nat
  outputCtx : Bool
  nextId : Nat
  started : List (Nat × String)
  stopped : List Nat
  endedFired : List Nat
deriving DecidableEq

def pbInit : PlaybackState :=
  { audioQueue := [], isPlaying := false, currentSource := none, outputCtx := false,
    nextId := 0, started := [], stopped := [], endedFired := [] }

/-- Helper for `clearAudioQueue`: stopping the in-flight source (if any) is
logged. -/
def stopLog (cur : Option Nat) (log : List Nat) : List Nat :=
  match cur with
  | some i => log ++ [i]
  | none => log

/-- `clearAudioQueue` (src/unnamed/part_001:371-382): empty the queue, stop and
drop the in-flight source (best effort), reset the now-playing reference and
the playing flag. -/
def clearAudioQueue (p : PlaybackState) : PlaybackState :=
  { p with audioQueue := [], isPlaying := false, currentSource := none,
           stopped := stopLog p.currentSource p.stopped }

/-- Core of `playNextAudio` (src/unnamed/part_001:384-429), structurally
recursive on the queue it is draining (the source recurses after shifting the
queue ref, so the list argument is always the current `audioQueueRef`).
`decodeOk` models whether `atob`/decoding of a payload succeeds; on decode
failure the source nulls the current ref and recurses (the skip-on-error
path).  On success a fresh source node starts rendering and becomes the
now-playing reference; its `onended` callback is delivered later as a
separate event. -/
def drainQueue (decodeOk : String → Bool) : List String → PlaybackState → PlaybackState
  | [], p => { p with isPlaying := false }
  | payload :: rest, p =>
    let p1 := { p with isPlaying := true, audioQueue := rest, outputCtx := true }
    if decodeOk payload then
      { p1 with currentSource := some p1.nextId, nextId := p1.nextId + 1,
                started := p1.started ++ [(p1.nextId, payload)] }
    else
      drainQueue decodeOk rest { p1 with currentSource := none }

/-- `playNextAudio`: drain starting from the current queue. -/
def playNextAudio (decodeOk : String → Bool) (p : PlaybackState) : PlaybackState :=
  drainQueue decodeOk p.audioQueue p

/-- `queueAudio` (src/unnamed/part_001:364-369): push the payload; if nothing
is playing, immediately begin playback. -/
def queueAudio (decodeOk : String → Bool) (payload : String) (p : PlaybackState) :
    PlaybackState :=
  let p1 := { p with audioQueue := p.audioQueue ++ [payload] }
  if p.isPlaying then p1 else playNextAudio decodeOk p1

/-- Delivery of the `onended` completion callback of source `id`
(src/unnamed/part_001:417-420).  The guard models the environment: a
callback exists only for a started source and fires at most once (it may
fire after natural completion or after `stop()`).  The handler body is
exactly the source's: null the now-playing reference, then `playNextAudio()`
— note it does not check that the now-playing reference still points at its
own source. -/
def onEnded (decodeOk : String → Bool) (id : Nat) (p : PlaybackState) : PlaybackState :=
  if (p.started.map Prod.fst).contains id && !(p.endedFired.contains id) then
    playNextAudio decodeOk
      { p with currentSource := none, endedFired := p.endedFired ++ [id] }
  else p

/-- Events of the playback pipeline in isolation: inbound `audio` envelope,
inbound `clear_audio` envelope, completion-callback delivery. -/
inductive PbEvent where
  | recvAudio (payload : String)
  | recvClear
  | ended (id : Nat)
deriving DecidableEq

def pbStep (decodeOk : String → Bool) : PbEvent → PlaybackState → PlaybackState
  | .recvAudio payload, p => queueAudio decodeOk payload p
  | .recvClear, p => clearAudioQueue p
  | .ended id, p => onEnded decodeOk id p

def pbRun (decodeOk : String → Bool) (evs : List PbEvent) (p : PlaybackState) :
    PlaybackState :=
  evs.foldl (fun s e => pbStep decodeOk e s) p

/-- Decoding environment in which every payload decodes successfully. -/
def decodeAll : String → Bool := fun _ => true

/-!
## Session state machine (CallInterface)

`SessionState` collects `callState`, `callStartTime` and the mutable refs of
`CallInterface`.  Resource-handle refs become booleans (`true` = ref holds a
live handle).  The model tracks the most recently created WebSocket
(`socketExists`/`socketState`) together with a ghost counter
`socketsCreated` of how many sockets `handleCallStart` has ever opened;
`wsRefSet` records whether `wsRef.current` is set (the source assigns it
only inside `ws.onopen`).  `analyser` is note-worthy: `cleanup()` never
nulls `analyserRef` (the node is released only by closing its owning input
`AudioContext`), so `cleanup` leaves it untouched here as in the source.
-/

structure SessionState where
  callState : CallState
  callStartTime : Nat
  socketsCreated : Nat
  socketExists : Bool
  socketState : WsReady
  wsRefSet : Bool
  mediaStream : Bool
  inputCtx : Bool
  analyser : Bool
  processor : Bool
  sourceNode : Bool
  animationFrame : Bool
  playback : PlaybackState
deriving DecidableEq

/-- Observable outputs of one handler invocation: toasts shown and envelopes
sent over the socket. -/
structure Effects where
  toasts : List Toast
  sent : List Envelope
deriving DecidableEq

def noEffects : Effects := { toasts := [], sent := [] }

def initSession : SessionState :=
  { callState := .idle, callStartTime := 0, socketsCreated := 0,
    socketExists := false, socketState := .closed, wsRefSet := false,
    mediaStream := false, inputCtx := false, analyser := false,
    processor := false, sourceNode := false, animationFrame := false,
    playback := pbInit }

def toastConnecting : Toast := ⟨"Connecting...", "Establishing connection"⟩
def toastConnected : Toast := ⟨"Call Connected", "You are now connected"⟩
def toastConnError : Toast := ⟨"Connection Error", "Failed to connect to server"⟩
def toastCallEnded : Toast := ⟨"Call Ended", "The call has been disconnected"⟩
def toastStartFailed : Toast := ⟨"Error", "Failed to start call"⟩
def toastMessageSent (message : String) : Toast := ⟨"Message Sent", message⟩

/-- `handleCallStart` (src/unnamed/part_001:154-225) with `micOk` standing for
whether `getUserMedia` succeeds in `setupAudio`.  Note the handler has no
guard on the current state: it unconditionally sets `connecting`, and on
success acquires the microphone, input context and analyser and creates a
new WebSocket (the handlers of which are delivered as separate events).  On
acquisition failure (`getUserMedia` throws before any ref is assigned) the
catch block toasts and returns the state to `idle`; nothing else changes and
no socket is created. -/
def handleCallStart (micOk : Bool) (s : SessionState) : SessionState × Effects :=
  let s1 := { s with callState := CallState.connecting }
  if micOk then
    let s2 := { s1 with mediaStream := true, inputCtx := true, analyser := true }
    ({ s2 with socketsCreated := s2.socketsCreated + 1,
               socketExists := true, socketState := WsReady.connecting },
     { toasts := [toastConnecting], sent := [] })
  else
    ({ s1 with callState := CallState.idle },
     { toasts := [toastConnecting, toastStartFailed], sent := [] })

/-- `startAudioProcessing` (src/unnamed/part_001:290-317): guarded on the
stream, input context and analyser refs; wires up the source and processor
nodes.  (The per-block `onaudioprocess` encoder is modelled separately by
`encodeSample`.) -/
def startAudioProcessing (s : SessionState) : SessionState :=
  if s.mediaStream && s.inputCtx && s.analyser then
    { s with sourceNode := true, processor := true }
  else s

/-- `ws.onopen` (src/unnamed/part_001:185-203): set `wsRef.current`, enter
`active`, record the start time, toast, send the initial `config` envelope
and start audio processing.  (`startAudioVisualization`'s `animate` reads a
stale non-`active` `callState` from its closure and returns before
scheduling a frame, so `animationFrameRef` is not set.)  The event applies
only to an existing socket that has not yet opened. -/
def handleWsOpen (now : Nat) (s : SessionState) : SessionState × Effects :=
  if s.socketExists && s.socketState == WsReady.connecting then
    let s1 := { s with socketState := WsReady.open, wsRefSet := true,
                       callState := CallState.active, callStartTime := now }
    (startAudioProcessing s1,
     { toasts := [toastConnected], sent := [Envelope.config 48000 "both"] })
  else (s, noEffects)

/-- `cleanup` (src/unnamed/part_001:431-463): clear the playback queue, then
release the animation frame, processor, source node, microphone tracks and
both audio contexts (each guarded on the ref being set).  `analyserRef` is
not nulled by the source. -/
def cleanup (s : SessionState) : SessionState :=
  { s with playback := { clearAudioQueue s.playback with outputCtx := false },
           animationFrame := false, processor := false, sourceNode := false,
           mediaStream := false, inputCtx := false }

/-- `handleCallEnd` (src/unnamed/part_001:227-240): close and null
`wsRef.current` if set, run `cleanup`, return to `idle` with
`callStartTime := 0`, toast. -/
def handleCallEnd (s : SessionState) : SessionState × Effects :=
  let s1 := if s.wsRefSet then { s with socketState := WsReady.closed, wsRefSet := false }
            else s
  let s2 := cleanup s1
  ({ s2 with callState := CallState.idle, callStartTime := 0 },
   { toasts := [toastCallEnded], sent := [] })

/-- `handleSendMessage` (src/unnamed/part_001:242-262): if `wsRef.current` is
set and the socket is OPEN, send a `text` envelope and toast; otherwise only
log locally — but toast identically. -/
def handleSendMessage (message : String) (s : SessionState) : SessionState × Effects :=
  if s.wsRefSet && s.socketState == WsReady.open then
    (s, { toasts := [toastMessageSent message], sent := [Envelope.text message] })
  else
    (s, { toasts := [toastMessageSent message], sent := [] })

/-- `handleWebSocketMessage` (src/unnamed/part_001:337-362): dispatch on the
parsed envelope type; `audio` enqueues, `clear_audio` clears, `error`
toasts, `transcript` and any unrecognized type do nothing, and a parse
failure is caught and logged. -/
def handleWebSocketMessage (decodeOk : String → Bool) (m : InMsg) (s : SessionState) :
    SessionState × Effects :=
  match m with
  | .audio payload =>
      ({ s with playback := queueAudio decodeOk payload s.playback }, noEffects)
  | .transcript => (s, noEffects)
  | .clearAudio => ({ s with playback := clearAudioQueue s.playback }, noEffects)
  | .errorMsg message => (s, { toasts := [⟨"Error", message⟩], sent := [] })
  | .other _ => (s, noEffects)
  | .malformed => (s, noEffects)

/-- External events driving the session machine. -/
inductive SessionEvent where
  | start (micOk : Bool)
  | wsOpen (now : Nat)
  | wsError
  | wsClose
  | hangup
  | recv (m : InMsg)
  | sendText (message : String)
  | ended (id : Nat)
deriving DecidableEq

/-- One step of the session machine.  `wsError` (src/unnamed/part_001:206-213)
only toasts and sets `idle` — it clears neither `callStartTime` nor any
resource, and leaves the socket's own state to the separate close event.
`wsClose` means the socket actually closed and its `onclose` handler ran
`handleCallEnd`; close fires at most once per socket.  `hangup` is the
end-call button invoking `handleCallEnd` directly. -/
def step (decodeOk : String → Bool) : SessionEvent → SessionState → SessionState × Effects
  | .start micOk, s => handleCallStart micOk s
  | .wsOpen now, s => handleWsOpen now s
  | .wsError, s =>
      if s.socketExists && !(s.socketState == WsReady.closed) then
        ({ s with callState := CallState.idle }, { toasts := [toastConnError], sent := [] })
      else (s, noEffects)
  | .wsClose, s =>
      if s.socketExists && !(s.socketState == WsReady.closed) then
        handleCallEnd { s with socketState := WsReady.closed }
      else (s, noEffects)
  | .hangup, s => handleCallEnd s
  | .recv m, s =>
      if s.socketExists then handleWebSocketMessage decodeOk m s else (s, noEffects)
  | .sendText message, s => handleSendMessage message s
  | .ended id, s => ({ s with playback := onEnded decodeOk id s.playback }, noEffects)

def runSession (decodeOk : String → Bool) (evs : List SessionEvent) (s : SessionState) :
    SessionState × Effects :=
  evs.foldl
    (fun acc e =>
      let r := step decodeOk e acc.1
      (r.1, { toasts := acc.2.toasts ++ r.2.toasts, sent := acc.2.sent ++ r.2.sent }))
    (s, noEffects)

/-- Whether the UI renders the `SlideToCall` gesture trigger
(src/unnamed/part_001:482-491): only in the `idle` state. -/
def showsSlideToCall (c : CallState) : Bool :=
  match c with
  | .idle => true
  | _ => false

/-!
## Capture encoder / playback decoder (PCM16)

The `onaudioprocess` body (src/unnamed/part_001:306-309) clamps each sample
to `[-1, 1]` and stores `s < 0 ? s * 0x8000 : s * 0x7FFF` into an
`Int16Array`; a JavaScript `Int16Array` store applies `ToInt16`: truncation
toward zero followed by wrap-around into `[-32768, 32767]`.  Playback
(src/unnamed/part_001:406-408) maps each 16-bit sample to `n / 32768.0`.
Samples are modelled as exact rationals. -/

def clampSample (x : ℚ) : ℚ := max (-1) (min 1 x)

/-- JavaScript number-to-integer truncation (toward zero). -/
def jsTrunc (q : ℚ) : ℤ := if q < 0 then -⌊-q⌋ else ⌊q⌋

/-- Wrap an integer into the signed 16-bit range, as `ToInt16` does. -/
def toInt16 (n : ℤ) : ℤ := (n + 32768) % 65536 - 32768

/-- One sample of the capture encoder: clamp, scale (32768 for negatives,
32767 otherwise), store as int16. -/
def encodeSample (x : ℚ) : ℤ :=
  let s := clampSample x
  toInt16 (jsTrunc (if s < 0 then s * 32768 else s * 32767))

/-- One sample of the playback decoder: `int16Array[i] / 32768.0`. -/
def decodeSample (n : ℤ) : ℚ := (n : ℚ) / 32768

/-!
## Gesture trigger (SlideToCall)

State of `isDragging` / `slidePosition` / `isComplete` plus a ghost count
`scheduled` of how many `setTimeout(() => onCallStart(), 200)` timers have
been scheduled — each such timer fires `onCallStart` exactly once, so
`scheduled` is the number of times the start-call callback fires.  A move
event carries the horizontal offset `clientX - rect.left - 31` already
computed. -/

def maxSlide : ℚ := 258

structure SlideState where
  isDragging : Bool
  slidePosition : ℚ
  isComplete : Bool
  scheduled : Nat
deriving DecidableEq

def slideInit : SlideState :=
  { isDragging := false, slidePosition := 0, isComplete := false, scheduled := 0 }

/-- Clamp of the computed offset, `Math.max(0, Math.min(maxSlide, offset))`. -/
def clampPos (offset : ℚ) : ℚ := max 0 (min maxSlide offset)

/-- The 90% completion threshold `maxSlide * 0.9`. -/
def slideThreshold : ℚ := maxSlide * (9 / 10)

/-- `handleStart` (src/unnamed/part_001:17-20). -/
def handleStart (disabled : Bool) (s : SlideState) : SlideState :=
  if disabled || s.isComplete then s else { s with isDragging := true }

/-- `handleMove` (src/unnamed/part_001:22-39): ignore unless dragging, clamp
the new position, and past 90% of `maxSlide` become complete, stop dragging
and schedule the start-call callback. -/
def handleMove (disabled : Bool) (offset : ℚ) (s : SlideState) : SlideState :=
  if !s.isDragging || disabled || s.isComplete then s
  else
    let newPosition := clampPos offset
    let s1 := { s with slidePosition := newPosition }
    if newPosition > slideThreshold then
      { s1 with isComplete := true, isDragging := false, scheduled := s1.scheduled + 1 }
    else s1

/-- `handleEnd` (src/unnamed/part_001:41-49): stop dragging; reset the
position to 0 unless past the threshold. -/
def handleEnd (disabled : Bool) (s : SlideState) : SlideState :=
  if disabled || s.isComplete then s
  else
    let s1 := { s with isDragging := false }
    if s1.slidePosition ≤ slideThreshold then { s1 with slidePosition := 0 } else s1

/-- Whether a move offset crosses the completion threshold after clamping. -/
def exceeds (offset : ℚ) : Bool := decide (slideThreshold < clampPos offset)

/-- One complete drag sequence on an enabled, fresh control: a start event,
a list of move offsets, then release. -/
def runDrag (offsets : List ℚ) : SlideState :=
  handleEnd false (offsets.foldl (fun s o => handleMove false o s) (handleStart false slideInit))

/-!
## Message input (MessageInput)

`handleSubmit` (src/unnamed/part_000:18-24): with the current input string
and the `disabled` flag, it invokes `onSendMessage(message.trim())` and
clears the field exactly when the trimmed input is truthy (non-empty) and
the component is not disabled.  The result is the new field contents and
the optionally emitted message.  JavaScript's `String.prototype.trim`
(removal of leading and trailing whitespace) is modelled explicitly over
the character list. -/

def jsWhitespace (c : Char) : Bool :=
  c == ' ' || c == '\t' || c == '\n' || c == '\r'

def jsTrim (s : String) : String :=
  ⟨((s.data.dropWhile jsWhitespace).reverse.dropWhile jsWhitespace).reverse⟩

def handleSubmit (disabled : Bool) (message : String) : String × Option String :=
  if jsTrim message != "" && !disabled then ("", some (jsTrim message))
  else (message, none)

/-!
## Distinguished concrete states used by the counterexamples and witnesses
-/

/-- Playback state after the inbound envelope sequence
`[audio(A), clear_audio, audio(B)]` delivered in order. -/
def c1State : PlaybackState :=
  pbRun decodeAll [.recvAudio "A", .recvClear, .recvAudio "B"] pbInit

/-- Playback state after `[audio(A), clear_audio]`, i.e. just before `audio(B)`. -/
def c1Cleared : PlaybackState :=
  pbRun decodeAll [.recvAudio "A", .recvClear] pbInit

/-- A session in the `active` state reached along the happy path:
gesture-triggered start with the microphone granted, then the socket opens
at time 5. -/
def activeSession : SessionState :=
  (runSession decodeAll [.start true, .wsOpen 5] initSession).1

/-- The session after the happy path is followed by a transport error event. -/
def erroredSession : SessionState :=
  (runSession decodeAll [.start true, .wsOpen 5, .wsError] initSession).1

/-- All resource handles owned by the session are released: transport ref,
microphone stream, audio-graph nodes, animation frame, playback queue,
now-playing slot, and both audio contexts. -/
def resourcesReleased (s : SessionState) : Prop :=
  s.wsRefSet = false ∧ s.mediaStream = false ∧ s.inputCtx = false ∧
  s.processor = false ∧ s.sourceNode = false ∧ s.animationFrame = false ∧
  s.playback.audioQueue = [] ∧ s.playback.isPlaying = false ∧
  s.playback.currentSource = none ∧ s.playback.outputCtx = false

/-!
## Theorems
-/

/-- C1 counterexample: after `[audio(A), clear_audio, audio(B)]` the render of
`A` (source id 0) was stopped by the clear and `B` (source id 1) is the
now-playing render; yet delivering the stale completion callback of source 0
is not a no-op — it resets the now-playing reference (from `some 1` to
`none`) and the playing flag, contradicting the claim that a completion
callback for the render stopped by `clear()` has no effect on the queue or
the now-playing state. -/
theorem claim_C1_counterexample :
    c1State.started = [(0, "A"), (1, "B")] ∧
    c1State.stopped = [0] ∧
    c1State.currentSource = some 1 ∧
    c1State.isPlaying = true ∧
    (pbStep decodeAll (.ended 0) c1State).currentSource = none ∧
    (pbStep decodeAll (.ended 0) c1State).isPlaying = false := by
  decide

/-- C1 amended: for the inbound sequence `[audio(A), clear_audio, audio(B)]`,
the queue renders only `B` after the clear and never resumes `A`, for every
admissible delivery point of the completion callback of `A`'s render (before
the clear, between clear and `audio(B)`, or after `audio(B)`): in each case
the log of started renders is exactly `[(0, A), (1, B)]`.  The stale
completion callback is a no-op on the queue and the now-playing state only
when it fires before the next `audio` envelope is processed; if it fires
after `B`'s render has begun it resets the now-playing reference and the
playing flag (see the counterexample), although it still starts no new
render of `A`. -/
theorem claim_C1_amended :
    (pbRun decodeAll [.recvAudio "A", .recvClear, .recvAudio "B"] pbInit).started
      = [(0, "A"), (1, "B")] ∧
    (pbRun decodeAll [.recvAudio "A", .recvClear, .ended 0, .recvAudio "B"] pbInit).started
      = [(0, "A"), (1, "B")] ∧
    (pbRun decodeAll [.recvAudio "A", .recvClear, .recvAudio "B", .ended 0] pbInit).started
      = [(0, "A"), (1, "B")] ∧
    (pbRun decodeAll [.recvAudio "A", .ended 0, .recvClear, .recvAudio "B"] pbInit).started
      = [(0, "A"), (1, "B")] ∧
    (pbStep decodeAll (.ended 0) c1Cleared).audioQueue = c1Cleared.audioQueue ∧
    (pbStep decodeAll (.ended 0) c1Cleared).currentSource = c1Cleared.currentSource ∧
    (pbStep decodeAll (.ended 0) c1Cleared).isPlaying = c1Cleared.isPlaying := by
  decide

/-- C2 counterexample: from an `active` session, invoking the call-start
operation is not a no-op — it moves the state to `connecting` and opens a
second transport channel (the socket-creation count goes from 1 to 2),
contradicting the claim that `handleCallStart` is a no-op outside `idle`. -/
theorem claim_C2_counterexample :
    activeSession.callState = CallState.active ∧
    activeSession.socketsCreated = 1 ∧
    (step decodeAll (.start true) activeSession).1.callState = CallState.connecting ∧
    ¬ (step decodeAll (.start true) activeSession).1.callState = CallState.active ∧
    (step decodeAll (.start true) activeSession).1.socketsCreated = 2 := by
  decide

/-- C2 amended: `handleCallStart` is unguarded — invoked in any session state
(with the microphone granted) it sets the state to `connecting`, acquires
capture resources and opens a fresh transport channel; the restriction to
`idle` is enforced only by the UI, which renders the `SlideToCall` gesture
trigger solely when the state is `idle`. -/
theorem claim_C2_amended :
    (∀ s : SessionState,
      (step decodeAll (.start true) s).1.callState = CallState.connecting ∧
      (step decodeAll (.start true) s).1.socketsCreated = s.socketsCreated + 1 ∧
      (step decodeAll (.start true) s).1.mediaStream = true) ∧
    showsSlideToCall CallState.idle = true ∧
    showsSlideToCall CallState.connecting = false ∧
    showsSlideToCall CallState.active = false :=
  ⟨fun _ => ⟨rfl, rfl, rfl⟩, rfl, rfl, rfl⟩

/-- C3 counterexample: after `[start, socket-open at t = 5, socket-error]` the
session is observed in a non-`active` state (`idle`) while `startedAt` is
still 5 and the microphone and input context are still held — the transport
error path sets `idle` without clearing `startedAt` or releasing resources,
contradicting the claimed invariant. -/
theorem claim_C3_counterexample :
    erroredSession.callState = CallState.idle ∧
    ¬ erroredSession.callState = CallState.active ∧
    erroredSession.callStartTime = 5 ∧
    ¬ erroredSession.callStartTime = 0 ∧
    erroredSession.mediaStream = true ∧
    erroredSession.inputCtx = true := by
  decide

/-- C3 amended: the transitions away from `active` driven by a transport
close event or an explicit user hangup do clear `startedAt` and perform full
resource release; a transport error event alone, however, only sets the
state to `idle`, leaving `startedAt` and the resources untouched until the
subsequent close event arrives. -/
theorem claim_C3_amended :
    ∀ s : SessionState,
      ((step decodeAll .hangup s).1.callState = CallState.idle ∧
       (step decodeAll .hangup s).1.callStartTime = 0 ∧
       resourcesReleased (step decodeAll .hangup s).1) ∧
      (s.socketExists = true → ¬ s.socketState = WsReady.closed →
        (step decodeAll .wsClose s).1.callState = CallState.idle ∧
        (step decodeAll .wsClose s).1.callStartTime = 0 ∧
        resourcesReleased (step decodeAll .wsClose s).1) ∧
      ((step decodeAll .wsError s).1.callStartTime = s.callStartTime ∧
       (step decodeAll .wsError s).1.mediaStream = s.mediaStream) := by
  intro s
  refine ⟨?_, ?_, ?_⟩
  · by_cases h : s.wsRefSet <;>
      simp [step, handleCallEnd, cleanup, clearAudioQueue, stopLog, resourcesReleased, h]
  · intro h1 h2
    by_cases h : s.wsRefSet <;>
      simp [step, handleCallEnd, cleanup, clearAudioQueue, stopLog, resourcesReleased,
        h, h1, h2]
  · by_cases h : s.socketExists && !(s.socketState == WsReady.closed) <;> simp [step, h]

/-- C3 witness: the amended theorem applied to the concrete `active` session
reached along the happy path, discharging the socket hypotheses of the
close conjunct. -/
theorem claim_C3_witness :
    (step decodeAll .wsClose activeSession).1.callState = CallState.idle ∧
    (step decodeAll .wsClose activeSession).1.callStartTime = 0 ∧
    resourcesReleased (step decodeAll .wsClose activeSession).1 :=
  (claim_C3_amended activeSession).2.1 (by decide) (by decide)

/-- C6: the session release path (`handleCallEnd`, which closes the channel
ref and runs the unconditional `cleanup`) is idempotent — invoking it twice
from any session state yields exactly the same state as invoking it once,
and that state is `idle` with `startedAt = 0` and every owned resource
handle (channel ref, microphone stream, audio-graph nodes, playback queue,
now-playing slot, audio contexts) released.  Every ref access in `cleanup`
is null-guarded, so the second invocation also does not fault — in the
model, each guarded branch is a no-op on already-released fields. -/
theorem claim_C6 :
    ∀ s : SessionState,
      (handleCallEnd (handleCallEnd s).1).1 = (handleCallEnd s).1 ∧
      (handleCallEnd s).1.callState = CallState.idle ∧
      (handleCallEnd s).1.callStartTime = 0 ∧
      resourcesReleased (handleCallEnd s).1 := by
  intro s
  by_cases h : s.wsRefSet <;>
    simp [handleCallEnd, cleanup, clearAudioQueue, stopLog, resourcesReleased, h]

/-- C7: `handleSendMessage` accepts a message in every session state and
never changes the state; when the channel ref is set and the socket is
OPEN the message goes out as a `text` envelope, otherwise nothing is sent —
and in both cases the user sees the identical "Message Sent" toast. -/
theorem claim_C7 :
    ∀ (message : String) (s : SessionState),
      (handleSendMessage message s).1 = s ∧
      (handleSendMessage message s).2.toasts = [toastMessageSent message] ∧
      (handleSendMessage message s).2.sent =
        (if s.wsRefSet && s.socketState == WsReady.open then [Envelope.text message]
         else []) := by
  intro message s
  by_cases h : s.wsRefSet && s.socketState == WsReady.open <;>
    simp [handleSendMessage, h]

/-- C8: if microphone acquisition fails during the start attempt, the session
ends in `idle`, the user sees the "Connecting..." toast followed by the
failure toast, no envelope is sent (in particular no `config`), and the
state is otherwise untouched — in particular `socketsCreated` is unchanged,
so no transport channel was opened for the attempt; the step produces no
further actions, so nothing is retried automatically. -/
theorem claim_C8 :
    ∀ s : SessionState,
      step decodeAll (.start false) s =
        ({ s with callState := CallState.idle },
         { toasts := [toastConnecting, toastStartFailed], sent := [] }) :=
  fun _ => rfl

/-- C9: a well-formed inbound envelope whose `type` is none of `audio`,
`transcript`, `clear_audio`, `error` falls through the dispatch switch with
no effect at all: the session state (including the playback queue, the
now-playing slot and the channel fields) is returned unchanged and no toast
or envelope is produced. -/
theorem claim_C9 :
    ∀ (decodeOk : String → Bool) (ty : String) (s : SessionState),
      handleWebSocketMessage decodeOk (.other ty) s = (s, noEffects) :=
  fun _ _ _ => rfl

/-- C10: the message input emits exactly when the trimmed input is non-empty
and the component is not disabled; what it emits is the trimmed input and
the field is cleared afterwards.  In every other case nothing is emitted
and the field keeps its contents — so an empty or whitespace-only message
is never emitted. -/
theorem claim_C10 :
    ∀ (disabled : Bool) (message : String),
      (¬ jsTrim message = "" ∧ disabled = false →
        handleSubmit disabled message = ("", some (jsTrim message))) ∧
      (jsTrim message = "" ∨ disabled = true →
        handleSubmit disabled message = (message, none)) := by
  intro disabled message
  constructor
  · rintro ⟨h1, h2⟩
    subst h2
    simp [handleSubmit, h1]
  · rintro (h | h) <;> simp [handleSubmit, h]

/-- C10 witness: the claim applied at concrete inputs — a padded non-empty
message is emitted trimmed with the field cleared, and a whitespace-only
message is not emitted. -/
theorem claim_C10_witness :
    handleSubmit false "  hi " = ("", some (jsTrim "  hi ")) ∧
    handleSubmit false "   " = ("   ", none) :=
  ⟨(claim_C10 false "  hi ").1 ⟨by decide, rfl⟩,
   (claim_C10 false "   ").2 (Or.inl (by decide))⟩

/-- A JavaScript `Int16Array` store leaves an integer already inside the
signed 16-bit range unchanged. -/
theorem toInt16_of_bounds (n : ℤ) (hlo : -32768 ≤ n) (hhi : n ≤ 32767) :
    toInt16 n = n := by
  unfold toInt16
  omega

/-- C4 counterexample: at `x = 65535/65536 ∈ [-1, 1]` the encoder scales by
32767 and truncates to 32766, the decoder divides by 32768, and the
round-trip error is `3/65536 = 1.5/32768 > 1/32768` — the claimed one-step
bound fails for positive samples because encode and decode use different
scale factors. -/
theorem claim_C4_counterexample :
    (-1 : ℚ) ≤ 65535 / 65536 ∧ (65535 : ℚ) / 65536 ≤ 1 ∧
    |decodeSample (encodeSample (65535 / 65536)) - 65535 / 65536| = 3 / 65536 ∧
    ¬ |decodeSample (encodeSample (65535 / 65536)) - 65535 / 65536| ≤ 1 / 32768 := by
  have henc : encodeSample (65535 / 65536) = 32766 := by
    have hc : clampSample (65535 / 65536) = 65535 / 65536 := by
      unfold clampSample
      rw [min_eq_right (by norm_num), max_eq_right (by norm_num)]
    have ht : jsTrunc ((65535 : ℚ) / 65536 * 32767) = 32766 := by
      unfold jsTrunc
      rw [if_neg (by norm_num),
        show ((65535 : ℚ) / 65536 * 32767) = (2147385345 : ℚ) / 65536 by norm_num,
        Int.floor_eq_iff]
      constructor
      · norm_num
      · norm_num
    simp only [encodeSample, hc]
    rw [if_neg (by norm_num), ht]
    unfold toInt16
    norm_num
  have habs : |decodeSample (encodeSample (65535 / 65536)) - 65535 / 65536|
      = 3 / 65536 := by
    rw [henc]
    unfold decodeSample
    rw [abs_of_nonpos (by norm_num)]
    norm_num
  exact ⟨by norm_num, by norm_num, habs, by rw [habs]; norm_num⟩

/-- C4 amended: the capture encoder clamps to `[-1, 1]` and scales negatives
by 32768 and non-negatives by 32767 (truncating toward zero as the
`Int16Array` store does), the decoder divides by 32768; the round trip is
within `2/32768` of the original for every sample in `[-1, 1]`, and within
the originally claimed `1/32768` for every negative sample (where encode and
decode use the same scale factor 32768). -/
theorem claim_C4_amended (x : ℚ) (h1 : -1 ≤ x) (h2 : x ≤ 1) :
    |decodeSample (encodeSample x) - x| < 2 / 32768 ∧
    (x < 0 → |decodeSample (encodeSample x) - x| < 1 / 32768) := by
  have hc : clampSample x = x := by
    unfold clampSample
    rw [min_eq_right h2, max_eq_right h1]
  by_cases hneg : x < 0
  · have hq : x * 32768 < 0 := by nlinarith
    have hfl : ((⌊-(x * 32768)⌋ : ℤ) : ℚ) ≤ -(x * 32768) := Int.floor_le _
    have hfu : -(x * 32768) < ⌊-(x * 32768)⌋ + 1 := Int.lt_floor_add_one _
    have hge0 : (0 : ℤ) ≤ ⌊-(x * 32768)⌋ := Int.le_floor.mpr (by push_cast; nlinarith)
    have hlow : (-32768 : ℤ) ≤ -⌊-(x * 32768)⌋ := by
      have hcast : (-32768 : ℚ) ≤ ((-⌊-(x * 32768)⌋ : ℤ) : ℚ) := by push_cast; nlinarith
      exact_mod_cast hcast
    have henc : encodeSample x = -⌊-(x * 32768)⌋ := by
      simp only [encodeSample, hc]
      rw [if_pos hneg]
      unfold jsTrunc
      rw [if_pos hq]
      exact toInt16_of_bounds _ hlow (by omega)
    rw [henc]
    unfold decodeSample
    have hge : (0 : ℚ) ≤ ((-⌊-(x * 32768)⌋ : ℤ) : ℚ) / 32768 - x := by
      push_cast
      nlinarith
    have hlt : ((-⌊-(x * 32768)⌋ : ℤ) : ℚ) / 32768 - x < 1 / 32768 := by
      push_cast
      nlinarith
    rw [abs_of_nonneg hge]
    exact ⟨by linarith, fun _ => hlt⟩
  · have hx0 : 0 ≤ x := not_lt.mp hneg
    have hq0 : ¬ x * 32767 < 0 := by nlinarith
    have hfl : ((⌊x * 32767⌋ : ℤ) : ℚ) ≤ x * 32767 := Int.floor_le _
    have hfu : x * 32767 < ⌊x * 32767⌋ + 1 := Int.lt_floor_add_one _
    have hge0 : (0 : ℤ) ≤ ⌊x * 32767⌋ := Int.le_floor.mpr (by push_cast; nlinarith)
    have hub : ⌊x * 32767⌋ ≤ 32767 := by
      have hcast : ((⌊x * 32767⌋ : ℤ) : ℚ) ≤ 32767 := le_trans hfl (by nlinarith)
      exact_mod_cast hcast
    have henc : encodeSample x = ⌊x * 32767⌋ := by
      simp only [encodeSample, hc]
      rw [if_neg hneg]
      unfold jsTrunc
      rw [if_neg hq0]
      exact toInt16_of_bounds _ (by omega) hub
    rw [henc]
    unfold decodeSample
    have hle : ((⌊x * 32767⌋ : ℤ) : ℚ) / 32768 - x ≤ 0 := by nlinarith
    have hgt : -(2 / 32768) < ((⌊x * 32767⌋ : ℤ) : ℚ) / 32768 - x := by nlinarith
    rw [abs_of_nonpos hle]
    exact ⟨by linarith, fun hx => absurd hx hneg⟩

/-- C4 witness: the amended bound applied at the concrete sample `-1/2`,
with both the general `2/32768` bound and the negative-range `1/32768`
bound discharged. -/
theorem claim_C4_witness :
    |decodeSample (encodeSample (-1 / 2)) - (-1 / 2)| < 2 / 32768 ∧
    |decodeSample (encodeSample (-1 / 2)) - (-1 / 2)| < 1 / 32768 := by
  have h := claim_C4_amended (-1 / 2) (by norm_num) (by norm_num)
  exact ⟨h.1, h.2 (by norm_num)⟩

/-- A completed slide control ignores start events. -/
theorem handleStart_of_complete (d : Bool) (s : SlideState) (h : s.isComplete = true) :
    handleStart d s = s := by
  unfold handleStart
  rw [h]
  simp

/-- A completed slide control ignores move events. -/
theorem handleMove_of_complete (d : Bool) (o : ℚ) (s : SlideState)
    (h : s.isComplete = true) : handleMove d o s = s := by
  unfold handleMove
  rw [h]
  simp

/-- A completed slide control ignores release events. -/
theorem handleEnd_of_complete (d : Bool) (s : SlideState) (h : s.isComplete = true) :
    handleEnd d s = s := by
  unfold handleEnd
  rw [h]
  simp

/-- Folding any further moves over a completed control leaves it unchanged. -/
theorem foldMoves_of_complete (offsets : List ℚ) (s : SlideState) (h : s.isComplete = true) :
    offsets.foldl (fun t o => handleMove false o t) s = s := by
  induction offsets with
  | nil => rfl
  | cons o rest ih =>
    rw [List.foldl_cons, handleMove_of_complete false o s h]
    exact ih

/-- On a dragging, not-yet-complete control, a move clamps the offset and
either completes (scheduling the callback) or just tracks the position. -/
theorem handleMove_step (o : ℚ) (s : SlideState) (hd : s.isDragging = true)
    (hc : s.isComplete = false) :
    handleMove false o s =
      if slideThreshold < clampPos o then
        { s with slidePosition := clampPos o, isComplete := true, isDragging := false,
                 scheduled := s.scheduled + 1 }
      else { s with slidePosition := clampPos o } := by
  unfold handleMove
  rw [hd, hc]
  simp

/-- Invariant of the move fold: starting from a dragging, incomplete control
with no callback scheduled and an in-bounds position, the fold schedules the
callback exactly once iff some clamped offset crosses the threshold, and
otherwise stays incomplete with the position within the threshold. -/
theorem foldMoves_spec (offsets : List ℚ) (s : SlideState)
    (hd : s.isDragging = true) (hc : s.isComplete = false) (hs : s.scheduled = 0)
    (hp : s.slidePosition ≤ slideThreshold) :
    (offsets.any exceeds = true →
      (offsets.foldl (fun t o => handleMove false o t) s).isComplete = true ∧
      (offsets.foldl (fun t o => handleMove false o t) s).scheduled = 1) ∧
    (offsets.any exceeds = false →
      (offsets.foldl (fun t o => handleMove false o t) s).isComplete = false ∧
      (offsets.foldl (fun t o => handleMove false o t) s).scheduled = 0 ∧
      (offsets.foldl (fun t o => handleMove false o t) s).slidePosition ≤ slideThreshold) := by
  induction offsets generalizing s with
  | nil => exact ⟨by simp, fun _ => ⟨hc, hs, hp⟩⟩
  | cons o rest ih =>
    cases hex : exceeds o with
    | true =>
      have hgt : slideThreshold < clampPos o := of_decide_eq_true hex
      constructor
      · intro _
        rw [List.foldl_cons, handleMove_step o s hd hc, if_pos hgt,
          foldMoves_of_complete rest _ rfl]
        exact ⟨rfl, by simp [hs]⟩
      · intro hall
        rw [List.any_cons, hex] at hall
        simp at hall
    | false =>
      have hle : clampPos o ≤ slideThreshold := by
        have := of_decide_eq_false hex
        exact not_lt.mp this
      have hrec := ih { s with slidePosition := clampPos o } hd hc hs hle
      constructor
      · intro hany
        rw [List.any_cons, hex, Bool.false_or] at hany
        rw [List.foldl_cons, handleMove_step o s hd hc, if_neg (not_lt.mpr hle)]
        exact hrec.1 hany
      · intro hany
        rw [List.any_cons, hex, Bool.false_or] at hany
        rw [List.foldl_cons, handleMove_step o s hd hc, if_neg (not_lt.mpr hle)]
        exact hrec.2 hany

/-- Releasing an incomplete control with an in-threshold position stops the
drag and snaps the position back to 0. -/
theorem handleEnd_reset (f : SlideState) (hc : f.isComplete = false)
    (hp : f.slidePosition ≤ slideThreshold) :
    handleEnd false f = { f with isDragging := false, slidePosition := 0 } := by
  unfold handleEnd
  rw [hc]
  simp [hp]

/-- C5: for every drag sequence (start, a list of move offsets, release) on
an enabled, fresh control, the start-call callback is scheduled exactly once
if some move carries the clamped position past 90% of the maximum slide and
zero times otherwise; if no move crosses the threshold, the released control
has its position reset to 0 and the callback never fired; and once complete
the control absorbs every further start, move, and release event. -/
theorem claim_C5 : ∀ offsets : List ℚ,
    ((runDrag offsets).scheduled = if offsets.any exceeds then 1 else 0) ∧
    (offsets.any exceeds = false →
      (runDrag offsets).slidePosition = 0 ∧ (runDrag offsets).scheduled = 0) ∧
    (∀ (d : Bool) (o : ℚ) (s : SlideState), s.isComplete = true →
      handleStart d s = s ∧ handleMove d o s = s ∧ handleEnd d s = s) := by
  intro offsets
  have h0 : (0 : ℚ) ≤ slideThreshold := by
    unfold slideThreshold maxSlide
    norm_num
  have hspec := foldMoves_spec offsets (handleStart false slideInit) rfl rfl rfl h0
  unfold runDrag
  cases hany : offsets.any exceeds with
  | true =>
    have hf := hspec.1 hany
    rw [handleEnd_of_complete false _ hf.1]
    refine ⟨hf.2, fun hfalse => absurd hfalse (by decide), ?_⟩
    exact fun d o s h => ⟨handleStart_of_complete d s h, handleMove_of_complete d o s h,
      handleEnd_of_complete d s h⟩
  | false =>
    have hf := hspec.2 hany
    rw [handleEnd_reset _ hf.1 hf.2.2]
    refine ⟨hf.2.1, fun _ => ⟨rfl, hf.2.1⟩, ?_⟩
    exact fun d o s h => ⟨handleStart_of_complete d s h, handleMove_of_complete d o s h,
      handleEnd_of_complete d s h⟩

/-- C5 witness: the drag theorem applied at concrete inputs — a drag whose
single move reaches offset 240 (past 90% of 258) schedules the callback
once, a drag peaking at 100 fires nothing and resets to 0, and a concrete
completed control absorbs a move event. -/
theorem claim_C5_witness :
    ((runDrag [240]).scheduled = if [240].any exceeds then 1 else 0) ∧
    ((runDrag [100]).slidePosition = 0 ∧ (runDrag [100]).scheduled = 0) ∧
    (handleMove true 5 ⟨false, (0 : ℚ), true, 1⟩ = ⟨false, (0 : ℚ), true, 1⟩) := by
  refine ⟨(claim_C5 [240]).1, (claim_C5 [100]).2.1 ?_,
    ((claim_C5 [100]).2.2 true 5 ⟨false, (0 : ℚ), true, 1⟩ rfl).2.1⟩
  have hex : exceeds 100 = false := by
    unfold exceeds clampPos slideThreshold maxSlide
    rw [min_eq_right (by norm_num), max_eq_right (by norm_num)]
    norm_num
  simp [hex]

end CallAi
